import Mathlib

/-!
Shallow embedding of the data-shape classifier, series transformer and chart
suitability matrix of the `tabel-visualisasi-data` repository.

The embedded functions follow the TypeScript source:
* `detectDataType`, `getRecommendedCharts`, `getChartSuitability` from the
  auto-detecting `dataTypeDetection.ts` variant;
* `prepareChartData` from the `ChartDisplay` component variant that branches
  on the stored `dataType`.

Cell values are either strings or (finite) numbers; JavaScript numbers are
modelled by exact rationals (all witness inputs are small integers, so the
difference from IEEE doubles never shows).  JavaScript's `Number(string)`
conversion is modelled by `jsStringToNumber`, including whitespace trimming,
the empty string converting to `0`, signed decimal literals with fraction and
exponent, `Infinity`, and unsigned hex/octal/binary literals; every other
string converts to NaN.
-/

/- Core marks the `Rat` arithmetic operations irreducible, which blocks the
`decide` tactic's evaluation of concrete rational values; re-marking them
semireducible restores it (the kernel is unaffected either way). -/
set_option allowUnsafeReducibility true in
attribute [semireducible] Rat.add Rat.mul Rat.div Rat.inv Rat.sub Rat.neg Rat.normalize mkRat

namespace TabelVis

inductive ChartKind where
  | pie
  | bar
  | line
  | area
deriving DecidableEq, Fintype

inductive DataType where
  | auto
  | category
  | timeseries
  | multiseries
deriving DecidableEq, Fintype

inductive Confidence where
  | high
  | medium
  | low
deriving DecidableEq, Fintype

/-- A table cell: the TypeScript side is `string | number`. -/
inductive Value where
  | str (s : String)
  | num (q : ℚ)
deriving DecidableEq

/-- Result of JavaScript `Number(...)` applied to a string. -/
inductive JSNum where
  | nan
  | inf (neg : Bool)
  | fin (q : ℚ)
deriving DecidableEq

/-- JavaScript WhiteSpace and LineTerminator code points (trimmed by `Number`). -/
def isJSWhitespace (c : Char) : Bool :=
  c.val == 9 || c.val == 10 || c.val == 11 || c.val == 12 || c.val == 13 ||
  c.val == 32 || c.val == 160 || c.val == 5760 ||
  (8192 ≤ c.val && c.val ≤ 8202) ||
  c.val == 8232 || c.val == 8233 || c.val == 8239 || c.val == 8287 ||
  c.val == 12288 || c.val == 65279

def jsTrim (cs : List Char) : List Char :=
  ((cs.dropWhile isJSWhitespace).reverse.dropWhile isJSWhitespace).reverse

def isDecDigit (c : Char) : Bool := 48 ≤ c.val && c.val ≤ 57

def decDigitVal (c : Char) : ℕ := c.val.toNat - 48

def isHexDigit (c : Char) : Bool :=
  (48 ≤ c.val && c.val ≤ 57) || (97 ≤ c.val && c.val ≤ 102) ||
  (65 ≤ c.val && c.val ≤ 70)

def hexDigitVal (c : Char) : ℕ :=
  if 48 ≤ c.val && c.val ≤ 57 then c.val.toNat - 48
  else if 65 ≤ c.val && c.val ≤ 70 then c.val.toNat - 55
  else c.val.toNat - 87

def isOctDigit (c : Char) : Bool := 48 ≤ c.val && c.val ≤ 55

def isBinDigit (c : Char) : Bool := c.val == 48 || c.val == 49

/-- Value of a digit string in base `b` (digits valued by `dv`). -/
def digitsValBase (b : ℕ) (dv : Char → ℕ) (cs : List Char) : ℕ :=
  cs.foldl (fun a c => a * b + dv c) 0

def digitsVal (cs : List Char) : ℕ := digitsValBase 10 decDigitVal cs

/-- Parse an unsigned decimal literal `digits [. digits] [e[±]digits]`
(`.5`, `1.`, `1e3`, `2.5e-1` are all valid; the empty list is not). -/
def parseUnsignedDec (cs : List Char) : Option ℚ :=
  let mant := cs.takeWhile fun c => !(c == 'e' || c == 'E')
  let erest := cs.dropWhile fun c => !(c == 'e' || c == 'E')
  let expPart : Option ℤ :=
    match erest with
    | [] => some 0
    | _ :: es =>
      let sgn : ℤ := match es with
        | '-' :: _ => -1
        | _ => 1
      let ds := match es with
        | '+' :: r => r
        | '-' :: r => r
        | r => r
      if ds ≠ [] ∧ ds.all isDecDigit then some (sgn * (digitsVal ds : ℤ)) else none
  let mantVal : Option ℚ :=
    let ip := mant.takeWhile isDecDigit
    match mant.dropWhile isDecDigit with
    | [] => if ip = [] then none else some (digitsVal ip : ℚ)
    | '.' :: fp =>
      if fp.all isDecDigit ∧ (ip ≠ [] ∨ fp ≠ []) then
        some ((digitsVal ip : ℚ) + (digitsVal fp : ℚ) / (10 : ℚ) ^ fp.length)
      else none
    | _ => none
  match mantVal, expPart with
  | some m, some e => some (m * (10 : ℚ) ^ e)
  | _, _ => none

/-- Parse an optionally signed decimal literal or `Infinity`. -/
def parseSignedDec (cs : List Char) : JSNum :=
  let neg : Bool := match cs with
    | '-' :: _ => true
    | _ => false
  let body := match cs with
    | '+' :: r => r
    | '-' :: r => r
    | r => r
  if body = "Infinity".toList then .inf neg
  else
    match parseUnsignedDec body with
    | some q => .fin (if neg then -q else q)
    | none => .nan

/-- JavaScript `Number(s)` for a string `s` (NaN as `JSNum.nan`). -/
def jsStringToNumber (s : String) : JSNum :=
  match jsTrim s.toList with
  | [] => .fin 0
  | '0' :: c :: rest =>
    if c == 'x' || c == 'X' then
      if rest ≠ [] ∧ rest.all isHexDigit then .fin (digitsValBase 16 hexDigitVal rest : ℚ)
      else .nan
    else if c == 'o' || c == 'O' then
      if rest ≠ [] ∧ rest.all isOctDigit then .fin (digitsValBase 8 decDigitVal rest : ℚ)
      else .nan
    else if c == 'b' || c == 'B' then
      if rest ≠ [] ∧ rest.all isBinDigit then .fin (digitsValBase 2 decDigitVal rest : ℚ)
      else .nan
    else parseSignedDec ('0' :: c :: rest)
  | cs => parseSignedDec cs

/-- The numeric test the source applies to a cell read from a row object:
`typeof val === 'number' || !isNaN(Number(val))`.  A missing cell reads as
`undefined`, and `Number(undefined)` is NaN. -/
def jsIsNumeric : Option Value → Bool
  | none => false
  | some (.num _) => true
  | some (.str s) =>
    match jsStringToNumber s with
    | .nan => false
    | _ => true

/-- A row object: insertion-ordered string-keyed record of cells. -/
abbrev Row := List (String × Value)

structure TableData where
  name : String
  columns : List String
  rows : List Row
deriving DecidableEq

structure DataTypeInfo where
  type : DataType
  confidence : Confidence
  recommendedCharts : List ChartKind
  reason : String
deriving DecidableEq

/-- `detectDataType` from `dataTypeDetection.ts`.  The source's Case 3 also
computes `allNumeric` over the first column but never uses it (dead code);
when `otherColsNumeric` fails, Case 3 falls through to Case 4 / the default. -/
def detectDataType (data : TableData) : DataTypeInfo :=
  let columns := data.columns
  let rows := data.rows
  if rows.length = 1 ∧ 1 < columns.length then
    { type := .category, confidence := .high, recommendedCharts := [.pie, .bar],
      reason := "1 baris dengan banyak kategori - cocok untuk melihat proporsi/persentase" }
  else if 1 < rows.length ∧ columns.length = 2 then
    if rows.all fun row => jsIsNumeric (row.lookup (columns.headD "")) then
      { type := .timeseries, confidence := .high, recommendedCharts := [.line, .area, .bar],
        reason := "Data berurutan dengan 1 metrik - cocok untuk melihat tren" }
    else
      { type := .timeseries, confidence := .medium, recommendedCharts := [.line, .area, .bar],
        reason := "Data dengan label dan 1 metrik - cocok untuk melihat perubahan" }
  else if 1 < rows.length ∧ 3 ≤ columns.length ∧
      ((columns.drop 1).all fun col => rows.all fun row => jsIsNumeric (row.lookup col)) then
    { type := .multiseries, confidence := .high, recommendedCharts := [.line, .area, .bar],
      reason := "Multiple series untuk dibandingkan - cocok untuk melihat perbedaan tren" }
  else if 1 < rows.length ∧ columns.length = 1 then
    { type := .category, confidence := .low, recommendedCharts := [.bar],
      reason := "Data sederhana dengan 1 kolom" }
  else
    { type := .multiseries, confidence := .low, recommendedCharts := [.bar, .line],
      reason := "Struktur data kompleks - pilih visualisasi yang sesuai" }

structure ChartRecommendation where
  recommended : List ChartKind
  notRecommended : List ChartKind
deriving DecidableEq

def allCharts : List ChartKind := [.pie, .bar, .line, .area]

/-- `getRecommendedCharts` from `dataTypeDetection.ts`. -/
def getRecommendedCharts (dataType : DataType) : ChartRecommendation :=
  let recommended : List ChartKind :=
    match dataType with
    | .category => [.pie, .bar]
    | .timeseries => [.line, .area, .bar]
    | .multiseries => [.line, .area, .bar]
    | .auto => allCharts
  { recommended := recommended,
    notRecommended := allCharts.filter fun chart => !(recommended.contains chart) }

structure ChartSuitability where
  suitable : Bool
  reason : String
deriving DecidableEq

/-- `getChartSuitability` from `dataTypeDetection.ts` (the variant with the
`auto` request shape). -/
def getChartSuitability (chartType : ChartKind) (dataType : DataType) : ChartSuitability :=
  match dataType, chartType with
  | .auto, .pie => ⟨true, "Auto-detect akan menentukan kesesuaian"⟩
  | .auto, .bar => ⟨true, "Auto-detect akan menentukan kesesuaian"⟩
  | .auto, .line => ⟨true, "Auto-detect akan menentukan kesesuaian"⟩
  | .auto, .area => ⟨true, "Auto-detect akan menentukan kesesuaian"⟩
  | .category, .pie => ⟨true, "Ideal untuk melihat proporsi/persentase tiap kategori"⟩
  | .category, .bar => ⟨true, "Bagus untuk membandingkan nilai antar kategori"⟩
  | .category, .line => ⟨false, "Tidak cocok - data tidak memiliki kontinuitas waktu"⟩
  | .category, .area => ⟨false, "Tidak cocok - data tidak memiliki kontinuitas waktu"⟩
  | .timeseries, .pie => ⟨false, "Tidak cocok - pie chart untuk proporsi, bukan tren waktu"⟩
  | .timeseries, .bar => ⟨true, "Bisa digunakan untuk melihat perubahan per periode"⟩
  | .timeseries, .line => ⟨true, "Ideal untuk melihat tren dan pola perubahan"⟩
  | .timeseries, .area => ⟨true, "Bagus untuk melihat volume dan akumulasi"⟩
  | .multiseries, .pie => ⟨false, "Tidak cocok - pie chart hanya untuk 1 series"⟩
  | .multiseries, .bar => ⟨true, "Bagus untuk membandingkan nilai antar series"⟩
  | .multiseries, .line => ⟨true, "Ideal untuk membandingkan tren multiple series"⟩
  | .multiseries, .area => ⟨true, "Bagus untuk melihat kontribusi tiap series (stacked)"⟩

/-- A value stored in a prepared chart row: the transformer writes strings,
finite numbers, infinities (e.g. from the cell `"Infinity"`), or leaves a
slot `undefined` (only for a color looked up in an empty palette). -/
inductive OutVal where
  | str (s : String)
  | num (q : ℚ)
  | inf (neg : Bool)
  | undefined
deriving DecidableEq

/-- A prepared chart row: a JavaScript object built by successive writes. -/
abbrev ChartRow := List (String × OutVal)

/-- Property write `obj[k] = v` on a JavaScript object: an existing key keeps
its position and gets the new value, a new key is appended. -/
def jsSet (obj : ChartRow) (k : String) (v : OutVal) : ChartRow :=
  if obj.any fun p => p.1 == k then
    obj.map fun p => if p.1 == k then (k, v) else p
  else obj ++ [(k, v)]

/-- The coercion `typeof value === 'string' ? Number(value) || 0 : value || 0`
used by the category and timeseries branches (`value` may be `undefined`).
`NaN || 0` and `0 || 0` are `0`; infinities are truthy and pass through. -/
def tsCoerce : Option Value → OutVal
  | none => .num 0
  | some (.num q) => .num q
  | some (.str s) =>
    match jsStringToNumber s with
    | .nan => .num 0
    | .fin q => .num q
    | .inf b => .inf b

/-- The coercion used by the multiseries and default branches:
`typeof value === 'string' && !isNaN(Number(value)) ? Number(value) : value || ''`.
Note `Number('') = 0` is not NaN, so the empty string becomes the number `0`;
the number `0` is falsy, so `0 || ''` is the empty string; a missing cell
(`undefined`) becomes the empty string; a non-numeric string is non-empty,
hence truthy, and passes through unchanged. -/
def msCoerce : Option Value → OutVal
  | none => .str ""
  | some (.num q) => if q = 0 then .str "" else .num q
  | some (.str s) =>
    match jsStringToNumber s with
    | .nan => .str s
    | .fin q => .num q
    | .inf b => .inf b

/-- `COLORS[i % COLORS.length]`: `undefined` when the palette is empty
(JavaScript `i % 0` is NaN and the lookup yields `undefined`). -/
def colorAt (colors : List String) (i : ℕ) : OutVal :=
  match colors.get? (i % colors.length) with
  | some c => .str c
  | none => .undefined

/-- `prepareChartData` from the `ChartDisplay` component (the variant that
branches on the stored `dataType`).  In the source it is a closure over the
component props; `colors` is `data.colors || DEFAULT_COLORS` and `dataType`
is `data.dataType || 'category'`, both resolved by the caller.  A `category`
dataset that is not single-row-multi-column falls through to the default
branch, which is identical to the multiseries branch. -/
def prepareChartData (data : TableData) (colors : List String) (dataType : DataType) :
    List ChartRow :=
  if dataType = .category ∧ data.rows.length = 1 ∧ 1 < data.columns.length then
    data.columns.enum.map fun ic =>
      [("name", OutVal.str ic.2),
       ("value", tsCoerce ((data.rows.headD []).lookup ic.2)),
       ("color", colorAt colors ic.1)]
  else if dataType = .timeseries then
    data.rows.enum.map fun ir =>
      data.columns.foldl
        (fun acc col => jsSet acc col (tsCoerce (ir.2.lookup col)))
        [("index", OutVal.num ((ir.1 : ℚ) + 1)),
         ("indexLabel", OutVal.str ("Baris " ++ toString (ir.1 + 1)))]
  else if dataType = .multiseries then
    data.rows.map fun row =>
      data.columns.foldl (fun acc col => jsSet acc col (msCoerce (row.lookup col))) []
  else
    data.rows.map fun row =>
      data.columns.foldl (fun acc col => jsSet acc col (msCoerce (row.lookup col))) []

/-- Follows the spec's words (§4.1), for comparison with the code's numeric
test: a value parses as a number when it is already a number, or is a string
that converts losslessly to a number under standard decimal parsing; the
empty string does not count as numeric. -/
def specParsesAsNumber : Value → Bool
  | .num _ => true
  | .str s =>
    let body : List Char := match s.toList with
      | '+' :: r => r
      | '-' :: r => r
      | r => r
    !s.toList.isEmpty && (parseUnsignedDec body).isSome

/-- Follows the spec's words (§4.3): the fixed suitability truth table,
with the `Auto` request shape suitable for every kind. -/
def specSuitabilityTable (dataType : DataType) (chartType : ChartKind) : Bool :=
  match dataType, chartType with
  | .auto, _ => true
  | .category, .pie => true
  | .category, .bar => true
  | .category, .line => false
  | .category, .area => false
  | .timeseries, .pie => false
  | .timeseries, _ => true
  | .multiseries, .pie => false
  | .multiseries, _ => true

/-! Concrete datasets used as counterexample and witness inputs. -/

/-- Two rows, two columns, first column entirely empty strings. -/
def c2Data : TableData :=
  ⟨"t", ["A", "B"], [[("A", .str ""), ("B", .str "1")], [("A", .str ""), ("B", .str "2")]]⟩

/-- The Day/Revenue scenario dataset of the spec (§8). -/
def c2WitData : TableData :=
  ⟨"t", ["Day", "Revenue"],
   [[("Day", .str "1"), ("Revenue", .str "100")], [("Day", .str "2"), ("Revenue", .str "150")]]⟩

/-- Two rows, a single column: classified Category with low confidence. -/
def c3Data : TableData := ⟨"t", ["A"], [[("A", .str "1")], [("A", .str "2")]]⟩

/-- The Sales scenario dataset of the spec (§8). -/
def c4WitData : TableData :=
  ⟨"Sales", ["Jan", "Feb", "Mar"], [[("Jan", .str "10"), ("Feb", .str "20"), ("Mar", .str "15")]]⟩

/-- Two rows, a single column (a second copy, for the C5 counterexample). -/
def c5Data : TableData := ⟨"t", ["B"], [[("B", .str "3")], [("B", .str "4")]]⟩

/-- Two rows, two numeric columns: classified TimeSeries with high confidence. -/
def c5WitData : TableData :=
  ⟨"t", ["Day", "Rev"], [[("Day", .str "1"), ("Rev", .str "2")], [("Day", .str "3"), ("Rev", .str "4")]]⟩

/-- One row whose first-column cell is the numeric string "1". -/
def c6Data : TableData := ⟨"t", ["K", "V"], [[("K", .str "1"), ("V", .str "2")]]⟩

/-- The Region/Q1/Q2 scenario dataset of the spec (§8). -/
def c6WitData : TableData :=
  ⟨"t", ["Region", "Q1", "Q2"],
   [[("Region", .str "East"), ("Q1", .str "5"), ("Q2", .str "7")],
    [("Region", .str "West"), ("Q1", .str "3"), ("Q2", .str "9")]]⟩

/-- The Day/Revenue scenario dataset of the spec (§8), for C7. -/
def c7Data : TableData :=
  ⟨"t", ["Day", "Revenue"],
   [[("Day", .str "1"), ("Revenue", .str "100")], [("Day", .str "2"), ("Revenue", .str "150")]]⟩

/-- A dataset with zero rows. -/
def c8WitData : TableData := ⟨"t", ["A"], []⟩

/-- Three columns; the first column holds labels. -/
def c9DataA : TableData :=
  ⟨"left", ["L", "X", "Y"],
   [[("L", .str "p"), ("X", .str "1"), ("Y", .str "2")],
    [("L", .str "q"), ("X", .str "3"), ("Y", .str "4")]]⟩

/-- Same non-first cells as `c9DataA`, but a renamed first column whose cells
differ (the second row omits it entirely). -/
def c9DataB : TableData :=
  ⟨"right", ["M", "X", "Y"],
   [[("M", .str "zz"), ("X", .str "1"), ("Y", .str "2")],
    [("X", .str "3"), ("Y", .str "4")]]⟩

/-! Helper lemmas shared by the claim proofs. -/

theorem list_all_congr {α : Type} (f g : α → Bool) (l : List α)
    (h : ∀ a ∈ l, f a = g a) : l.all f = l.all g := by
  induction l with
  | nil => rfl
  | cons a t ih =>
    simp only [List.all_cons]
    rw [h a (List.mem_cons_self a t), ih fun b hb => h b (List.mem_cons_of_mem a hb)]

/-- Writing pairwise-distinct fresh keys into a JavaScript object just appends
them in order. -/
theorem foldl_jsSet_eq (f : String → OutVal) (cols : List String) :
    ∀ init : ChartRow, cols.Nodup → (∀ p ∈ init, p.1 ∉ cols) →
      cols.foldl (fun acc col => jsSet acc col (f col)) init
        = init ++ cols.map fun col => (col, f col) := by
  induction cols with
  | nil => intro init _ _; simp
  | cons c cs ih =>
    intro init hnd hdisj
    have hany : (init.any fun p => p.1 == c) = false := by
      rw [List.any_eq_false]
      intro p hp
      have hnotin : p.1 ∉ c :: cs := hdisj p hp
      simp only [beq_iff_eq]
      intro he
      exact hnotin (he ▸ List.mem_cons_self _ _)
    have hstep : jsSet init c (f c) = init ++ [(c, f c)] := by
      unfold jsSet; rw [hany]; simp
    have hdisj' : ∀ p ∈ init ++ [(c, f c)], p.1 ∉ cs := by
      intro p hp
      rcases List.mem_append.mp hp with h | h
      · exact fun hm => hdisj p h (List.mem_cons_of_mem _ hm)
      · have hpe : p = (c, f c) := by simpa using h
        subst hpe
        exact (List.nodup_cons.mp hnd).1
    rw [List.foldl_cons, hstep, ih (init ++ [(c, f c)]) (List.Nodup.of_cons hnd) hdisj']
    simp

theorem all_eq_of_forall2 {α : Type} (p : α → Bool) :
    ∀ {l1 l2 : List α}, List.Forall₂ (fun a b => p a = p b) l1 l2 → l1.all p = l2.all p := by
  intro l1 l2 h
  induction h with
  | nil => rfl
  | cons hr _ ih =>
    simp only [List.all_cons]
    rw [hr, ih]

/-! The claims. -/

/-- C1: the suitability lookup is total and fixed: for every shape (including
the `Auto` request shape) and every chart kind, the boolean flag of
`getChartSuitability` matches the fixed truth table of §4.3, with `Auto`
suitable for all four kinds.  The lookup takes no dataset, so the verdict
cannot depend on any dataset content. -/
theorem c1_suitability_matrix (dt : DataType) (k : ChartKind) :
    (getChartSuitability k dt).suitable = specSuitabilityTable dt k := by
  cases dt <;> cases k <;> rfl

/-- C10: the two encodings of chart advice agree: a kind is recommended for a
shape by `getRecommendedCharts` exactly when `getChartSuitability` marks the
pair suitable. -/
theorem c10_recommendation_suitability_agree (dt : DataType) (k : ChartKind) :
    k ∈ (getRecommendedCharts dt).recommended ↔ (getChartSuitability k dt).suitable = true := by
  cases dt <;> cases k <;> decide

/-- C4: a dataset with exactly one row and more than one column is classified
`Category` with `high` confidence. -/
theorem c4_single_row_category (data : TableData)
    (h1 : data.rows.length = 1) (h2 : 1 < data.columns.length) :
    (detectDataType data).type = .category ∧ (detectDataType data).confidence = .high := by
  simp only [detectDataType]
  rw [if_pos ⟨h1, h2⟩]
  exact ⟨rfl, rfl⟩

/-- Witness for C4 at the Sales scenario dataset of the spec (§8). -/
theorem c4_single_row_category_witness :
    c4WitData.rows.length = 1 ∧ 1 < c4WitData.columns.length ∧
    (detectDataType c4WitData).type = .category ∧ (detectDataType c4WitData).confidence = .high :=
  ⟨by decide, by decide, c4_single_row_category c4WitData (by decide) (by decide)⟩

/-- C8: `detectDataType` is a total function (it returns a classification for
every dataset value by construction), and on a degenerate dataset with zero
rows or zero columns it returns the inert `MultiSeries`/`low` fallback. -/
theorem c8_degenerate_fallback (data : TableData)
    (h : data.rows.length = 0 ∨ data.columns.length = 0) :
    detectDataType data =
      { type := .multiseries, confidence := .low, recommendedCharts := [.bar, .line],
        reason := "Struktur data kompleks - pilih visualisasi yang sesuai" } := by
  rcases h with h | h <;>
  · simp only [detectDataType]
    rw [if_neg (by rintro ⟨h1, h2⟩; omega), if_neg (by rintro ⟨h1, h2⟩; omega),
        if_neg (by rintro ⟨h1, h2, -⟩; omega), if_neg (by rintro ⟨h1, h2⟩; omega)]

/-- Witness for C8 at a dataset with zero rows. -/
theorem c8_degenerate_fallback_witness :
    c8WitData.rows.length = 0 ∧
    detectDataType c8WitData =
      { type := .multiseries, confidence := .low, recommendedCharts := [.bar, .line],
        reason := "Struktur data kompleks - pilih visualisasi yang sesuai" } :=
  ⟨rfl, c8_degenerate_fallback c8WitData (Or.inl rfl)⟩

/-- C2 fails as stated: the code tests `!isNaN(Number(val))`, and JavaScript
converts the empty string to `0`, so a first column of empty strings still
yields `high` confidence even though the spec's parse definition excludes the
empty string (claim demands `medium` there). -/
theorem c2_counterexample :
    1 < c2Data.rows.length ∧ c2Data.columns.length = 2 ∧
    (∀ row ∈ c2Data.rows, row.lookup (c2Data.columns.headD "") = some (Value.str "")) ∧
    specParsesAsNumber (Value.str "") = false ∧
    (detectDataType c2Data).confidence = Confidence.high := by decide

/-- C2 (amended): a dataset with more than one row and exactly two columns is
classified `TimeSeries`, with confidence `high` exactly when every value of
the first column passes the code's numeric test (a number, or a string whose
JavaScript `Number(...)` conversion is not NaN — which counts empty and
whitespace-only strings as numeric since they convert to `0`), and `medium`
otherwise. -/
theorem c2_two_column_timeseries (data : TableData)
    (hr : 1 < data.rows.length) (hc : data.columns.length = 2) :
    (detectDataType data).type = .timeseries ∧
    ((detectDataType data).confidence = .high ↔
      ∀ row ∈ data.rows, jsIsNumeric (row.lookup (data.columns.headD "")) = true) ∧
    ((detectDataType data).confidence = .high ∨ (detectDataType data).confidence = .medium) := by
  have h1 : ¬ (data.rows.length = 1 ∧ 1 < data.columns.length) := by rintro ⟨h, -⟩; omega
  simp only [detectDataType]
  rw [if_neg h1, if_pos ⟨hr, hc⟩]
  by_cases hall : (data.rows.all fun row => jsIsNumeric (row.lookup (data.columns.headD ""))) = true
  · rw [if_pos hall]
    exact ⟨rfl, ⟨fun _ => List.all_eq_true.mp hall, fun _ => rfl⟩, Or.inl rfl⟩
  · rw [if_neg hall]
    exact ⟨rfl, ⟨fun h => Confidence.noConfusion h,
      fun hforall => absurd (List.all_eq_true.mpr hforall) hall⟩, Or.inr rfl⟩

/-- Witness for the amended C2 at the Day/Revenue scenario dataset. -/
theorem c2_two_column_timeseries_witness :
    1 < c2WitData.rows.length ∧ c2WitData.columns.length = 2 ∧
    (detectDataType c2WitData).type = .timeseries :=
  ⟨by decide, by decide, (c2_two_column_timeseries c2WitData (by decide) (by decide)).1⟩

/-- C3 fails as stated: for the multi-row single-column `Category` dataset the
transformer's category branch requires a single row and several columns, so
the data falls through to the default branch and the sequence length is the
row count (2), not the column count (1). -/
theorem c3_counterexample :
    c3Data.columns.length = 1 ∧ c3Data.rows.length = 2 ∧
    (detectDataType c3Data).type = .category ∧
    (prepareChartData c3Data [] .category).length = 2 ∧
    (prepareChartData c3Data [] .category).length ≠ c3Data.columns.length := by decide

/-- C3 (amended): the sequence produced by the transformer has length equal to
`columns.length` only when the shape is `Category` AND the dataset has exactly
one row and more than one column; in every other case (including `Category`
datasets of any other dimensions) it has length `rows.length`. -/
theorem c3_transform_length (data : TableData) (colors : List String) (dataType : DataType) :
    (prepareChartData data colors dataType).length =
      if dataType = .category ∧ data.rows.length = 1 ∧ 1 < data.columns.length
      then data.columns.length else data.rows.length := by
  simp only [prepareChartData]
  split_ifs with h1 h2 h3 <;> simp [List.enum_eq_enumFrom, List.enumFrom_length]

/-- C5 fails as stated: a multi-row single-column dataset is classified
`Category` (low confidence) but its `recommendedCharts` is `[bar]` — `pie` is
missing, so the recommendation set is not a function of the shape alone. -/
theorem c5_counterexample :
    (detectDataType c5Data).type = .category ∧
    (detectDataType c5Data).recommendedCharts = [ChartKind.bar] ∧
    ChartKind.pie ∉ (detectDataType c5Data).recommendedCharts := by decide

/-- C5 (amended): `getRecommendedCharts` maps each shape to the fixed table
(Category → pie, bar; TimeSeries/MultiSeries → line, area, bar) with
`notRecommended` its complement in the four chart kinds, and every
classification of confidence `high` or `medium` carries exactly the
recommendation set of its shape; the two `low`-confidence classifications
deviate (Category/low carries `[bar]`, the MultiSeries/low fallback carries
`[bar, line]`). -/
theorem c5_recommendations :
    ((getRecommendedCharts .category).recommended = [.pie, .bar] ∧
     (getRecommendedCharts .category).notRecommended = [.line, .area] ∧
     (getRecommendedCharts .timeseries).recommended = [.line, .area, .bar] ∧
     (getRecommendedCharts .timeseries).notRecommended = [.pie] ∧
     (getRecommendedCharts .multiseries).recommended = [.line, .area, .bar] ∧
     (getRecommendedCharts .multiseries).notRecommended = [.pie]) ∧
    ∀ data : TableData, (detectDataType data).confidence ≠ .low →
      (detectDataType data).recommendedCharts
        = (getRecommendedCharts (detectDataType data).type).recommended := by
  refine ⟨by decide, ?_⟩
  intro data h
  simp only [detectDataType] at h ⊢
  split_ifs at h ⊢ <;> first | rfl | exact absurd rfl h

/-- Witness for the amended C5 at a high-confidence TimeSeries dataset. -/
theorem c5_recommendations_witness :
    (detectDataType c5WitData).confidence ≠ .low ∧
    (detectDataType c5WitData).recommendedCharts
      = (getRecommendedCharts (detectDataType c5WitData).type).recommended :=
  ⟨by decide, c5_recommendations.2 c5WitData (by decide)⟩

/-- C6 fails as stated: the multiseries transform coerces every column,
including the first; a first-column cell holding the string "1" comes out as
the number 1, not the raw string. -/
theorem c6_counterexample :
    (c6Data.rows.headD []).lookup "K" = some (Value.str "1") ∧
    prepareChartData c6Data [] .multiseries = [[("K", OutVal.num 1), ("V", OutVal.num 2)]] ∧
    ((prepareChartData c6Data [] .multiseries).headD []).lookup "K" ≠ some (OutVal.str "1") := by
  decide

/-- C6 (amended): for a dataset with distinct column names and shape
`MultiSeries`, the transform produces one entry per row in row order with one
field per column — every column, the first included, treated uniformly by
`msCoerce`: a string cell whose `Number(...)` conversion is not NaN (the
empty string included, converting to 0) becomes that number, any other string
stays as is, a numeric cell stays numeric except 0 which becomes the empty
string, and a missing cell becomes the empty string. -/
theorem c6_multiseries_uniform (data : TableData) (colors : List String)
    (hnd : data.columns.Nodup) :
    prepareChartData data colors .multiseries
      = data.rows.map fun row => data.columns.map fun col => (col, msCoerce (row.lookup col)) := by
  simp only [prepareChartData]
  rw [if_pos trivial]
  refine List.map_congr_left fun row _ => ?_
  rw [foldl_jsSet_eq (fun col => msCoerce (row.lookup col)) data.columns [] hnd (by simp)]
  simp

/-- Witness for the amended C6 at the Region/Q1/Q2 scenario dataset. -/
theorem c6_multiseries_uniform_witness :
    c6WitData.columns.Nodup ∧
    prepareChartData c6WitData [] .multiseries =
      [[("Region", OutVal.str "East"), ("Q1", OutVal.num 5), ("Q2", OutVal.num 7)],
       [("Region", OutVal.str "West"), ("Q1", OutVal.num 3), ("Q2", OutVal.num 9)]] :=
  ⟨by decide, (c6_multiseries_uniform c6WitData [] (by decide)).trans (by decide)⟩

/-- C7 fails as stated: at the spec's own Day/Revenue scenario the second
entry is keyed `index`/`indexLabel` with display label "Baris 2", not
"row 2"; no field of that entry holds the string "row 2". -/
theorem c7_counterexample :
    (prepareChartData c7Data [] .timeseries).getD 1 []
      = [("index", OutVal.num 2), ("indexLabel", OutVal.str "Baris 2"),
         ("Day", OutVal.num 2), ("Revenue", OutVal.num 150)] ∧
    (∀ p ∈ (prepareChartData c7Data [] .timeseries).getD 1 [], p.2 ≠ OutVal.str "row 2") := by
  decide

/-- C7 (amended): for a dataset whose column names are distinct and do not
include `index` or `indexLabel`, the timeseries transform produces one entry
per row in row order holding the 1-based position in an `index` field, the
synthesized display label "Baris N" in an `indexLabel` field, and one
`tsCoerce`-coerced field per column (missing or unparseable cells become 0);
at the Day/Revenue scenario the second entry is
`[index 2, indexLabel "Baris 2", Day 2, Revenue 150]`. -/
theorem c7_timeseries_transform (data : TableData) (colors : List String)
    (hnd : data.columns.Nodup)
    (hidx : "index" ∉ data.columns) (hlab : "indexLabel" ∉ data.columns) :
    prepareChartData data colors .timeseries
      = data.rows.enum.map fun ir =>
          ("index", OutVal.num ((ir.1 : ℚ) + 1))
            :: ("indexLabel", OutVal.str ("Baris " ++ toString (ir.1 + 1)))
            :: data.columns.map fun col => (col, tsCoerce (ir.2.lookup col)) := by
  simp only [prepareChartData]
  rw [if_pos trivial]
  refine List.map_congr_left fun ir _ => ?_
  have hdisj : ∀ p ∈ ([("index", OutVal.num ((ir.1 : ℚ) + 1)),
      ("indexLabel", OutVal.str ("Baris " ++ toString (ir.1 + 1)))] : ChartRow),
      p.1 ∉ data.columns := by
    intro p hp
    rcases List.mem_cons.mp hp with h | hp2
    · subst h; exact hidx
    · rcases List.mem_cons.mp hp2 with h | h
      · subst h; exact hlab
      · exact absurd h (List.not_mem_nil p)
  rw [foldl_jsSet_eq (fun col => tsCoerce (ir.2.lookup col)) data.columns _ hnd hdisj]
  rfl

/-- Witness for the amended C7 at the Day/Revenue scenario dataset. -/
theorem c7_timeseries_transform_witness :
    c7Data.columns.Nodup ∧ "index" ∉ c7Data.columns ∧ "indexLabel" ∉ c7Data.columns ∧
    prepareChartData c7Data [] .timeseries =
      [[("index", OutVal.num 1), ("indexLabel", OutVal.str "Baris 1"),
        ("Day", OutVal.num 1), ("Revenue", OutVal.num 100)],
       [("index", OutVal.num 2), ("indexLabel", OutVal.str "Baris 2"),
        ("Day", OutVal.num 2), ("Revenue", OutVal.num 150)]] :=
  ⟨by decide, by decide, by decide,
   (c7_timeseries_transform c7Data [] (by decide) (by decide) (by decide)).trans (by decide)⟩

/-- C9: classification of ≥3-column multi-row data never depends on the first
column: two such datasets agreeing on every cell of every non-first column
(same non-first column names, rows related pointwise) classify identically.
The code's Case 3 computes a numeric scan of the first column but never uses
it. -/
theorem c9_first_column_noninterference (d1 d2 : TableData)
    (h1 : 1 < d1.rows.length) (h2 : 1 < d2.rows.length)
    (hc1 : 3 ≤ d1.columns.length) (hc2 : 3 ≤ d2.columns.length)
    (htail : d1.columns.drop 1 = d2.columns.drop 1)
    (hcells : List.Forall₂
      (fun r1 r2 => ∀ col ∈ d1.columns.drop 1, r1.lookup col = r2.lookup col)
      d1.rows d2.rows) :
    detectDataType d1 = detectDataType d2 := by
  have hcol : ∀ col ∈ d1.columns.drop 1,
      (d1.rows.all fun row => jsIsNumeric (row.lookup col))
        = (d2.rows.all fun row => jsIsNumeric (row.lookup col)) := by
    intro col hcolmem
    exact all_eq_of_forall2 _
      (List.Forall₂.imp (fun r1 r2 hr => by rw [hr col hcolmem]) hcells)
  have hscan :
      ((d1.columns.drop 1).all fun col => d1.rows.all fun row => jsIsNumeric (row.lookup col))
        = ((d2.columns.drop 1).all fun col => d2.rows.all fun row => jsIsNumeric (row.lookup col)) := by
    rw [← htail]
    exact list_all_congr _ _ _ hcol
  have reduce : ∀ d : TableData, 1 < d.rows.length → 3 ≤ d.columns.length →
      detectDataType d =
        if ((d.columns.drop 1).all fun col => d.rows.all fun row => jsIsNumeric (row.lookup col))
        then { type := .multiseries, confidence := .high, recommendedCharts := [.line, .area, .bar],
               reason := "Multiple series untuk dibandingkan - cocok untuk melihat perbedaan tren" }
        else { type := .multiseries, confidence := .low, recommendedCharts := [.bar, .line],
               reason := "Struktur data kompleks - pilih visualisasi yang sesuai" } := by
    intro d hd hc
    simp only [detectDataType]
    rw [if_neg (by rintro ⟨ha, -⟩; omega), if_neg (by rintro ⟨-, hb⟩; omega)]
    by_cases hall :
        ((d.columns.drop 1).all fun col => d.rows.all fun row => jsIsNumeric (row.lookup col)) = true
    · rw [if_pos ⟨hd, hc, hall⟩, if_pos hall]
    · rw [if_neg (fun hcontra => hall hcontra.2.2), if_neg (by rintro ⟨-, hb⟩; omega),
        if_neg hall]
  rw [reduce d1 h1 hc1, reduce d2 h2 hc2, hscan]

/-- Witness for C9: the first columns differ in name and every cell (one row
of the second dataset omits it entirely), yet the classifications coincide. -/
theorem c9_first_column_noninterference_witness :
    c9DataA.columns.drop 1 = c9DataB.columns.drop 1 ∧
    detectDataType c9DataA = detectDataType c9DataB :=
  ⟨by decide,
   c9_first_column_noninterference c9DataA c9DataB (by decide) (by decide) (by decide)
     (by decide) (by decide)
     (List.Forall₂.cons (by decide) (List.Forall₂.cons (by decide) List.Forall₂.nil))⟩

end TabelVis
